import Mathlib

/-!
Verification of the runtime-connection discovery and environment-provisioning
core of `code-sandbox-mcp` (Go sources `tools/docker_client.go` and
`tools/initialize.go`), shallowly embedded in Lean 4.

The engine and host environment are modelled as oracle structures recording,
for each external call the Go code can make, the outcome that call would
produce.  The embedded functions mirror the Go control flow exactly and
additionally return a trace of the external calls performed, so that temporal
properties ("pull is never invoked", "a candidate is never attempted") can be
stated about the trace.
-/

/-- Outcome oracles for `createDockerClient` (docker_client.go).
`fromEnvOk` / `fromEnvPingOk`: whether `client.NewClientWithOpts(client.FromEnv, ...)`
and the subsequent `cli.Ping` succeed.  `currentUser`: the home directory when
`user.Current()` succeeds.  `statOk p`: whether `os.Stat p` succeeds.
`connectOk p`: whether `client.NewClientWithOpts(client.WithHost ("unix://" ++ p), ...)`
succeeds.  `pingOk p`: whether `cli.Ping` on that client succeeds. -/
structure DockerEnv where
  fromEnvOk : Bool
  fromEnvPingOk : Bool
  currentUser : Option String
  statOk : String → Bool
  connectOk : String → Bool
  pingOk : String → Bool

/-- A resolved engine handle: either the environment-derived default client or
a client bound to an explicit socket path. -/
inductive DockerClient where
  | fromEnv : DockerClient
  | socket : String → DockerClient
deriving DecidableEq

/-- External calls performed during connection resolution. -/
inductive REvent where
  | connectEnv : REvent
  | pingEnv : REvent
  | stat : String → REvent
  | connect : String → REvent
  | ping : String → REvent
deriving DecidableEq

/-- The candidate an individual resolution event belongs to. -/
def REvent.cand : REvent → DockerClient
  | .connectEnv => .fromEnv
  | .pingEnv => .fromEnv
  | .stat p => .socket p
  | .connect p => .socket p
  | .ping p => .socket p

/-- Structured form of the resolver failure
`fmt.Errorf("could not connect to Docker daemon. Tried standard connection and socket paths: %v", socketPaths)`;
it carries the path list that the Go code formats into the message. -/
inductive ResolveError where
  | connFailed : List String → ResolveError
deriving DecidableEq

/-- The fallback socket-path list built at docker_client.go:30-42: the fixed
system socket, then (when `user.Current()` succeeds) three home-relative paths. -/
def socketPaths (env : DockerEnv) : List String :=
  ["/var/run/docker.sock"] ++
  match env.currentUser with
  | some home =>
      [home ++ "/.rd/docker.sock",
       home ++ "/.docker/run/docker.sock",
       home ++ "/.colima/default/docker.sock"]
  | none => []

/-- One iteration of the fallback loop (docker_client.go:45-61): stat the
socket path; if present, construct a client and ping it. -/
def tryPath (env : DockerEnv) (p : String) : Option DockerClient × List REvent :=
  if env.statOk p then
    if env.connectOk p then
      if env.pingOk p then
        (some (.socket p), [.stat p, .connect p, .ping p])
      else
        (none, [.stat p, .connect p, .ping p])
    else
      (none, [.stat p, .connect p])
  else
    (none, [.stat p])

/-- The fallback loop over a list of socket paths, returning the first
validated client and the accumulated trace. -/
def tryPaths (env : DockerEnv) : List String → Option DockerClient × List REvent
  | [] => (none, [])
  | p :: ps =>
    match tryPath env p with
    | (some c, t) => (some c, t)
    | (none, t) => ((tryPaths env ps).1, t ++ (tryPaths env ps).2)

/-- Trace of the initial environment-derived attempt (docker_client.go:16-27):
the construction call always happens; the ping only if construction succeeded. -/
def envEvents (env : DockerEnv) : List REvent :=
  if env.fromEnvOk then [.connectEnv, .pingEnv] else [.connectEnv]

/-- Embedding of `createDockerClient` (docker_client.go:14-64): try the
environment-derived default with a liveness ping, then the fallback socket
paths; on exhaustion fail with the error listing `socketPaths`. -/
def createDockerClient (env : DockerEnv) :
    Except ResolveError DockerClient × List REvent :=
  if env.fromEnvOk && env.fromEnvPingOk then
    (.ok .fromEnv, [.connectEnv, .pingEnv])
  else
    match (tryPaths env (socketPaths env)).1 with
    | some c => (.ok c, envEvents env ++ (tryPaths env (socketPaths env)).2)
    | none =>
      (.error (.connFailed (socketPaths env)),
        envEvents env ++ (tryPaths env (socketPaths env)).2)

/-- The ordered candidate list of the resolver: the environment-derived
default first, then the fallback socket paths. -/
def candidates (env : DockerEnv) : List DockerClient :=
  .fromEnv :: (socketPaths env).map DockerClient.socket

/-- Whether a candidate's client construction/connection and liveness ping
both succeed. -/
def candSucceeds (env : DockerEnv) : DockerClient → Bool
  | .fromEnv => env.fromEnvOk && env.fromEnvPingOk
  | .socket p => env.connectOk p && env.pingOk p

/-- `strings.Contains s sub`: `sub` occurs as a contiguous substring of `s`. -/
def containsSubstr (s sub : String) : Bool :=
  decide (sub.data <:+: s.data)

/-- The not-found substring test applied by createContainer to call-level error
text (initialize.go:61) and to the drained pull output (initialize.go:81). -/
def notFoundSignals (s : String) : Bool :=
  containsSubstr s "not found" || containsSubstr s "404" ||
    containsSubstr s "manifest unknown"

/-- The container spec fields set at initialize.go:94-100. -/
structure ContainerConfig where
  Image : String
  WorkingDir : String
  Tty : Bool
  OpenStdin : Bool
  StdinOnce : Bool
deriving DecidableEq

/-- The spec built for every container create (initialize.go:94-100). -/
def containerConfig (image : String) : ContainerConfig :=
  { Image := image, WorkingDir := "/app", Tty := true,
    OpenStdin := true, StdinOnce := false }

/-- Outcome oracles for one provisioning attempt (`createContainer`,
initialize.go:34-126).  `inspectOk`: whether `cli.ImageInspect` succeeds.
`pullCallErr`: `some errStr` when the `cli.ImagePull` call itself fails with
that error text.  `deadlineAtCall` / `deadlineAtRead`: whether
`pullCtx.Err() == context.DeadlineExceeded` holds at the corresponding check
site.  `readResult`: the `io.ReadAll` outcome on the pull stream (error text
or the fully drained output).  `createResult`: `ContainerCreate` outcome
(error text or the assigned container id).  `startErr`: `some e` when
`ContainerStart` fails with error text `e`. -/
structure Engine where
  env : DockerEnv
  inspectOk : Bool
  pullCallErr : Option String
  deadlineAtCall : Bool
  readResult : Except String String
  deadlineAtRead : Bool
  createResult : Except String String
  startErr : Option String

/-- External engine calls performed during one provisioning attempt. -/
inductive CEvent where
  | inspect : String → CEvent
  | pull : String → CEvent
  | readAll : CEvent
  | create : ContainerConfig → CEvent
  | start : String → CEvent
deriving DecidableEq

/-- Structured forms of the error returns of `createContainer`, one
constructor per `fmt.Errorf` site, carrying exactly the data the Go code
formats into the message. -/
inductive ContainerError where
  | clientFailed : ResolveError → ContainerError
  | pullTimeoutCall : String → ContainerError
  | imageNotFound : String → ContainerError
  | pullCallFailed : String → String → ContainerError
  | pullTimeoutRead : String → ContainerError
  | readFailed : String → String → ContainerError
  | pullOutputError : String → String → ContainerError
  | createFailed : String → ContainerError
  | startFailed : String → ContainerError
deriving DecidableEq

/-- The create-and-start tail of `createContainer` (initialize.go:93-125),
entered once the image is confirmed present. -/
def finishCreate (eng : Engine) (image : String) (evs : List CEvent) :
    Except ContainerError String × List CEvent :=
  match eng.createResult with
  | .error e => (.error (.createFailed e), evs ++ [.create (containerConfig image)])
  | .ok id =>
    match eng.startErr with
    | some e =>
      (.error (.startFailed e), evs ++ [.create (containerConfig image), .start id])
    | none => (.ok id, evs ++ [.create (containerConfig image), .start id])

/-- Embedding of `createContainer` (initialize.go:34-126): resolve a client,
inspect the image, conditionally pull with timeout/not-found/generic
classification (call failure, drain failure, then payload text inspection),
then create and start the container. -/
def createContainer (eng : Engine) (image : String) :
    Except ContainerError String × List CEvent :=
  match (createDockerClient eng.env).1 with
  | .error e => (.error (.clientFailed e), [])
  | .ok _ =>
    if eng.inspectOk then
      finishCreate eng image [.inspect image]
    else
      match eng.pullCallErr with
      | some errStr =>
        if eng.deadlineAtCall then
          (.error (.pullTimeoutCall image), [.inspect image, .pull image])
        else if notFoundSignals errStr then
          (.error (.imageNotFound image), [.inspect image, .pull image])
        else
          (.error (.pullCallFailed image errStr), [.inspect image, .pull image])
      | none =>
        match eng.readResult with
        | .error readErr =>
          if eng.deadlineAtRead then
            (.error (.pullTimeoutRead image), [.inspect image, .pull image, .readAll])
          else
            (.error (.readFailed image readErr), [.inspect image, .pull image, .readAll])
        | .ok pullStr =>
          if notFoundSignals pullStr then
            (.error (.imageNotFound image), [.inspect image, .pull image, .readAll])
          else if containsSubstr pullStr "error" || containsSubstr pullStr "Error" then
            (.error (.pullOutputError image pullStr), [.inspect image, .pull image, .readAll])
          else
            finishCreate eng image [.inspect image, .pull image, .readAll]

/-- Go `%v` rendering of a `[]string`. -/
def formatPaths (ps : List String) : String :=
  "[" ++ String.intercalate " " ps ++ "]"

/-- The message text of the resolver failure (docker_client.go:63). -/
def renderResolveError : ResolveError → String
  | .connFailed ps =>
    "could not connect to Docker daemon. Tried standard connection and socket paths: "
      ++ formatPaths ps

/-- The message text of each `createContainer` failure, mirroring the
`fmt.Errorf` format strings of initialize.go. -/
def renderContainerError : ContainerError → String
  | .clientFailed e => "failed to create Docker client: " ++ renderResolveError e
  | .pullTimeoutCall image =>
    "timeout while trying to pull Docker image " ++ image ++
      " - this usually means the image doesn\x27t exist in the registry or the registry is unreachable"
  | .imageNotFound image =>
    "docker image " ++ image ++
      " not found in registry. Please check that the image name and tag are correct"
  | .pullCallFailed image e => "failed to pull Docker image " ++ image ++ ": " ++ e
  | .pullTimeoutRead image => "timeout while downloading Docker image " ++ image
  | .readFailed image e => "failed to read pull response for image " ++ image ++ ": " ++ e
  | .pullOutputError image out => "failed to pull Docker image " ++ image ++ ": " ++ out
  | .createFailed e => "failed to create container: " ++ e
  | .startFailed e => "failed to start container: " ++ e

/-- A JSON-ish argument value as seen through the Go type assertion
`request.Params.Arguments["image"].(string)`: either a string, or some
non-string value (number, object, ...) for which the assertion fails. -/
inductive ArgVal where
  | str : String → ArgVal
  | nonString : ArgVal
deriving DecidableEq

/-- The payload of `mcp.NewToolResultText`: a textual tool result. -/
inductive ToolResult where
  | text : String → ToolResult
deriving DecidableEq

/-- Image resolution at initialize.go:18-22: use the argument when it is
present, a string, and non-empty; otherwise the fixed default image. -/
def resolveImage : Option ArgVal → String
  | some (.str s) => if s = "" then "python:3.12-slim-bookworm" else s
  | _ => "python:3.12-slim-bookworm"

/-- Embedding of `InitializeEnvironment` (initialize.go:16-31): resolve the
image, provision, and convert the outcome to a text payload with a `nil`
Go error (modelled as the `Option String` component, always `none`). -/
def InitializeEnvironment (eng : Engine) (arg : Option ArgVal) :
    ToolResult × Option String :=
  match (createContainer eng (resolveImage arg)).1 with
  | .error e => (.text ("Error: " ++ renderContainerError e), none)
  | .ok id => (.text ("container_id: " ++ id), none)

/-- Whether connection resolution produces a client. -/
def resolvesOk (env : DockerEnv) : Bool :=
  match (createDockerClient env).1 with
  | .ok _ => true
  | .error _ => false

/-- Whether the image-acquisition phase of `createContainer` succeeds, so that
control reaches container creation: either inspect succeeded, or the pull call
and drain succeeded and the drained text carries no failure signal. -/
def pullPhaseOk (eng : Engine) : Bool :=
  eng.inspectOk ||
  match eng.pullCallErr with
  | some _ => false
  | none =>
    match eng.readResult with
    | .error _ => false
    | .ok out =>
      !(notFoundSignals out) &&
        !(containsSubstr out "error" || containsSubstr out "Error")

/-- Fixture: the environment-derived default client connects and pings. -/
def envOk : DockerEnv :=
  { fromEnvOk := true, fromEnvPingOk := true, currentUser := none,
    statOk := fun _ => false, connectOk := fun _ => false,
    pingOk := fun _ => false }

/-- Fixture: the default attempt fails and no socket path exists on disk,
although a connection and ping would succeed if ever attempted. -/
def envNoDocker : DockerEnv :=
  { fromEnvOk := false, fromEnvPingOk := false, currentUser := none,
    statOk := fun _ => false, connectOk := fun _ => true,
    pingOk := fun _ => true }

/-- Fixture: the default client constructs but fails its ping; only the fixed
system socket exists and answers the ping. -/
def envFallback : DockerEnv :=
  { fromEnvOk := true, fromEnvPingOk := false, currentUser := some "/home/u",
    statOk := fun p => p == "/var/run/docker.sock",
    connectOk := fun _ => true,
    pingOk := fun p => p == "/var/run/docker.sock" }

/-- Fixture: the pull call fails with not-found text while the pull context
deadline has expired. -/
def engTimeout : Engine :=
  { env := envOk, inspectOk := false, pullCallErr := some "manifest not found",
    deadlineAtCall := true, readResult := .error "ctx", deadlineAtRead := true,
    createResult := .ok "cid", startErr := none }

/-- Fixture: the pull call succeeds but the drained output embeds a
manifest-unknown error. -/
def engManifestUnknown : Engine :=
  { env := envOk, inspectOk := false, pullCallErr := none,
    deadlineAtCall := false, readResult := .ok "manifest unknown",
    deadlineAtRead := false, createResult := .ok "cid", startErr := none }

/-- Fixture: the image is already present locally and create/start succeed. -/
def engLocal : Engine :=
  { env := envOk, inspectOk := true, pullCallErr := none,
    deadlineAtCall := false, readResult := .ok "", deadlineAtRead := false,
    createResult := .ok "cid", startErr := none }

/-- Fixture: create succeeds but the subsequent start fails. -/
def engStartFails : Engine :=
  { env := envOk, inspectOk := true, pullCallErr := none,
    deadlineAtCall := false, readResult := .ok "", deadlineAtRead := false,
    createResult := .ok "cid", startErr := some "boom" }

lemma exists_ok_of_resolvesOk (env : DockerEnv) (h : resolvesOk env = true) :
    ∃ c, (createDockerClient env).1 = .ok c := by
  unfold resolvesOk at h
  rcases hr : (createDockerClient env).1 with e | c
  · rw [hr] at h; simp at h
  · exact ⟨c, rfl⟩

lemma finishCreate_fst (eng : Engine) (image : String) (evs evs2 : List CEvent) :
    (finishCreate eng image evs).1 = (finishCreate eng image evs2).1 := by
  unfold finishCreate
  rcases hc : eng.createResult with e | id
  · rfl
  · rcases hs : eng.startErr with _ | e <;> rfl

lemma finishCreate_mem (eng : Engine) (image : String) (evs : List CEvent)
    (ev : CEvent) (h : ev ∈ (finishCreate eng image evs).2) :
    ev ∈ evs ∨ ev = .create (containerConfig image) ∨ ∃ id, ev = .start id := by
  unfold finishCreate at h
  rcases hc : eng.createResult with e | id <;> rw [hc] at h
  · simp at h; tauto
  · rcases hs : eng.startErr with _ | e <;> rw [hs] at h <;> simp at h <;> tauto

lemma finishCreate_create_mem (eng : Engine) (image : String) (evs : List CEvent) :
    CEvent.create (containerConfig image) ∈ (finishCreate eng image evs).2 := by
  unfold finishCreate
  rcases hc : eng.createResult with e | id
  · simp
  · rcases hs : eng.startErr with _ | e <;> simp

lemma createContainer_fst_phase (eng : Engine) (image : String)
    (hres : resolvesOk eng.env = true) (hphase : pullPhaseOk eng = true) :
    (createContainer eng image).1 = (finishCreate eng image []).1 := by
  obtain ⟨c, hc⟩ := exists_ok_of_resolvesOk _ hres
  unfold createContainer
  rw [hc]
  by_cases hi : eng.inspectOk = true
  · simp [hi]
    exact finishCreate_fst _ _ _ _
  · unfold pullPhaseOk at hphase
    simp only [Bool.not_eq_true] at hi
    rw [hi] at hphase
    simp only [Bool.false_or] at hphase
    rcases hp : eng.pullCallErr with _ | e <;> rw [hp] at hphase
    · rcases hrr : eng.readResult with e | out <;> rw [hrr] at hphase
      · simp at hphase
      · simp at hphase
        simp [hi, hp, hrr, hphase]
        exact finishCreate_fst _ _ _ _
    · simp at hphase

lemma createContainer_mem_types (eng : Engine) (image : String) (ev : CEvent)
    (h : ev ∈ (createContainer eng image).2) :
    ev = .inspect image ∨ ev = .pull image ∨ ev = .readAll ∨
    ev = .create (containerConfig image) ∨ ∃ id, ev = .start id := by
  rcases hr : (createDockerClient eng.env).1 with e | c
  · simp [createContainer, hr] at h
  · by_cases hi : eng.inspectOk = true
    · have h2 : ev ∈ (finishCreate eng image [CEvent.inspect image]).2 := by
        simpa [createContainer, hr, hi] using h
      rcases finishCreate_mem _ _ _ _ h2 with h1 | h1 | ⟨id, h1⟩
      · simp at h1; tauto
      · tauto
      · exact .inr (.inr (.inr (.inr ⟨id, h1⟩)))
    · rcases hp : eng.pullCallErr with _ | eStr
      · rcases hrr : eng.readResult with eRead | out
        · by_cases hd : eng.deadlineAtRead = true <;>
            · simp [createContainer, hr, hi, hp, hrr, hd] at h
              tauto
        · by_cases hnf : notFoundSignals out = true
          · simp [createContainer, hr, hi, hp, hrr, hnf] at h; tauto
          · by_cases herr : (containsSubstr out "error" ||
                containsSubstr out "Error") = true
            · simp [createContainer, hr, hi, hp, hrr, hnf, herr] at h; tauto
            · have h2 : ev ∈ (finishCreate eng image
                  [CEvent.inspect image, CEvent.pull image, CEvent.readAll]).2 := by
                simpa [createContainer, hr, hi, hp, hrr, hnf, herr] using h
              rcases finishCreate_mem _ _ _ _ h2 with h1 | h1 | ⟨id, h1⟩
              · simp at h1; tauto
              · tauto
              · exact .inr (.inr (.inr (.inr ⟨id, h1⟩)))
      · by_cases hd : eng.deadlineAtCall = true
        · simp [createContainer, hr, hi, hp, hd] at h; tauto
        · by_cases hnf : notFoundSignals eStr = true <;>
            · simp [createContainer, hr, hi, hp, hd, hnf] at h
              tauto

lemma create_event_config (eng : Engine) (image : String) (cfg : ContainerConfig)
    (h : CEvent.create cfg ∈ (createContainer eng image).2) :
    cfg = containerConfig image := by
  rcases createContainer_mem_types eng image _ h with h1 | h1 | h1 | h1 | ⟨id, h1⟩ <;>
    simp at h1
  exact h1

/-- C1: every invocation of `InitializeEnvironment` returns a textual result
and a nil error: internal failures become a text payload prefixed "Error: ",
and success is a text payload containing the container identifier; no failure
propagates as a returned error. -/
theorem initializeEnvironment_always_text_nil_error (eng : Engine)
    (arg : Option ArgVal) :
    (InitializeEnvironment eng arg).2 = none ∧
    ((∃ e, (createContainer eng (resolveImage arg)).1 = .error e ∧
        (InitializeEnvironment eng arg).1 =
          .text ("Error: " ++ renderContainerError e)) ∨
     (∃ id, (createContainer eng (resolveImage arg)).1 = .ok id ∧
        (InitializeEnvironment eng arg).1 =
          .text ("container_id: " ++ id))) := by
  rcases h : (createContainer eng (resolveImage arg)).1 with e | id
  · refine ⟨?_, .inl ⟨e, rfl, ?_⟩⟩ <;> simp [InitializeEnvironment, h]
  · refine ⟨?_, .inr ⟨id, rfl, ?_⟩⟩ <;> simp [InitializeEnvironment, h]

/-- C3: when the pull call or the stream drain fails while the pull context
deadline has expired, the failure is classified as a timeout, regardless of
the text of the underlying error (the timeout check precedes the substring
inspection). -/
theorem pull_timeout_classified_before_text (eng : Engine) (image : String)
    (hres : resolvesOk eng.env = true) (hins : eng.inspectOk = false) :
    (∀ errStr, eng.pullCallErr = some errStr → eng.deadlineAtCall = true →
      (createContainer eng image).1 = .error (.pullTimeoutCall image)) ∧
    (∀ readErr, eng.pullCallErr = none → eng.readResult = .error readErr →
      eng.deadlineAtRead = true →
      (createContainer eng image).1 = .error (.pullTimeoutRead image)) := by
  obtain ⟨c, hc⟩ := exists_ok_of_resolvesOk _ hres
  constructor
  · intro errStr hp hd
    simp [createContainer, hc, hins, hp, hd]
  · intro readErr hp hrr hd
    simp [createContainer, hc, hins, hp, hrr, hd]

/-- Witness for C3: a pull-call failure whose error text contains "not found"
is still classified as a timeout when the deadline has expired. -/
theorem pull_timeout_classified_before_text_witness :
    notFoundSignals "manifest not found" = true ∧
    (createContainer engTimeout "img").1 = .error (.pullTimeoutCall "img") :=
  ⟨by decide,
   (pull_timeout_classified_before_text engTimeout "img" (by decide) rfl).1
     "manifest not found" rfl rfl⟩

/-- C4: when the image-inspect call succeeds, the pull operation is never
invoked, and (when a client was resolved) a container create with the
resolved image follows. -/
theorem inspect_success_skips_pull (eng : Engine) (image : String)
    (h : eng.inspectOk = true) :
    (∀ im, CEvent.pull im ∉ (createContainer eng image).2) ∧
    (resolvesOk eng.env = true →
      CEvent.create (containerConfig image) ∈ (createContainer eng image).2) := by
  constructor
  · intro im hmem
    rcases hr : (createDockerClient eng.env).1 with e | c
    · simp [createContainer, hr] at hmem
    · have h2 : CEvent.pull im ∈
          (finishCreate eng image [CEvent.inspect image]).2 := by
        simpa [createContainer, hr, h] using hmem
      rcases finishCreate_mem _ _ _ _ h2 with h1 | h1 | ⟨id, h1⟩ <;> simp at h1
  · intro hres
    obtain ⟨c, hc⟩ := exists_ok_of_resolvesOk _ hres
    have := finishCreate_create_mem eng image [CEvent.inspect image]
    simpa [createContainer, hc, h] using this

/-- Witness for C4 at a concrete engine whose inspect succeeds. -/
theorem inspect_success_skips_pull_witness :
    CEvent.pull "python:3.12-slim-bookworm" ∉
      (createContainer engLocal "python:3.12-slim-bookworm").2 ∧
    CEvent.create (containerConfig "python:3.12-slim-bookworm") ∈
      (createContainer engLocal "python:3.12-slim-bookworm").2 :=
  ⟨(inspect_success_skips_pull engLocal "python:3.12-slim-bookworm" rfl).1
     "python:3.12-slim-bookworm",
   (inspect_success_skips_pull engLocal "python:3.12-slim-bookworm" rfl).2
     (by decide)⟩

/-- C5: an absent or empty image argument is replaced by the default image
python:3.12-slim-bookworm, and every container spec created for it has
working directory /app, a TTY, stdin kept open, and StdinOnce false. -/
theorem default_image_and_interactive_config (arg : Option ArgVal)
    (h : arg = none ∨ arg = some (.str "")) :
    resolveImage arg = "python:3.12-slim-bookworm" ∧
    ∀ (eng : Engine) (cfg : ContainerConfig),
      CEvent.create cfg ∈ (createContainer eng (resolveImage arg)).2 →
      cfg.Image = "python:3.12-slim-bookworm" ∧ cfg.WorkingDir = "/app" ∧
      cfg.Tty = true ∧ cfg.OpenStdin = true ∧ cfg.StdinOnce = false := by
  have himg : resolveImage arg = "python:3.12-slim-bookworm" := by
    rcases h with rfl | rfl <;> rfl
  refine ⟨himg, fun eng cfg hmem => ?_⟩
  have hcfg := create_event_config _ _ _ hmem
  rw [hcfg, himg]
  exact ⟨rfl, rfl, rfl, rfl, rfl⟩

/-- Witness for C5: the config created for the empty-string request. -/
theorem default_image_and_interactive_config_witness :
    (containerConfig "python:3.12-slim-bookworm").Image =
        "python:3.12-slim-bookworm" ∧
    (containerConfig "python:3.12-slim-bookworm").WorkingDir = "/app" ∧
    (containerConfig "python:3.12-slim-bookworm").Tty = true ∧
    (containerConfig "python:3.12-slim-bookworm").OpenStdin = true ∧
    (containerConfig "python:3.12-slim-bookworm").StdinOnce = false :=
  (default_image_and_interactive_config (some (.str "")) (Or.inr rfl)).2
    engLocal (containerConfig "python:3.12-slim-bookworm") (by decide)

/-- C6: a pull whose call succeeds but whose fully drained response text
contains a not-found signal fails with the image-not-found classification
(whose message contains "not found in registry"), not the generic pull
failure. -/
theorem drained_not_found_classified (eng : Engine) (image out : String)
    (hres : resolvesOk eng.env = true) (hins : eng.inspectOk = false)
    (hcall : eng.pullCallErr = none) (hread : eng.readResult = .ok out)
    (hnf : notFoundSignals out = true) :
    (createContainer eng image).1 = .error (.imageNotFound image) ∧
    containsSubstr (renderContainerError (.imageNotFound image))
      "not found in registry" = true := by
  obtain ⟨c, hc⟩ := exists_ok_of_resolvesOk _ hres
  constructor
  · simp [createContainer, hc, hins, hcall, hread, hnf]
  · unfold containsSubstr renderContainerError
    rw [decide_eq_true_eq]
    rw [String.data_append]
    have h1 : ("not found in registry").data <:+:
        (" not found in registry. Please check that the image name and tag are correct").data := by
      decide
    exact h1.trans (List.suffix_append _ _).isInfix

/-- Witness for C6: drained text "manifest unknown" yields image-not-found. -/
theorem drained_not_found_classified_witness :
    (createContainer engManifestUnknown "img").1 =
      .error (.imageNotFound "img") ∧
    containsSubstr (renderContainerError (.imageNotFound "img"))
      "not found in registry" = true :=
  drained_not_found_classified engManifestUnknown "img" "manifest unknown"
    (by decide) rfl rfl rfl (by decide)

/-- C7: when container creation succeeds but the start call fails, the
attempt returns the wrapped start error and no container identifier. -/
theorem start_failure_yields_error_without_id (eng : Engine)
    (image id e : String) (hres : resolvesOk eng.env = true)
    (hphase : pullPhaseOk eng = true) (hcreate : eng.createResult = .ok id)
    (hstart : eng.startErr = some e) :
    (createContainer eng image).1 = .error (.startFailed e) ∧
    ∀ id2, (createContainer eng image).1 ≠ .ok id2 := by
  have hfst := createContainer_fst_phase eng image hres hphase
  have hfin : (finishCreate eng image []).1 = .error (.startFailed e) := by
    simp [finishCreate, hcreate, hstart]
  rw [hfst, hfin]
  exact ⟨rfl, fun id2 h => Except.noConfusion h⟩

/-- Witness for C7 at a concrete engine where create succeeds and start
fails. -/
theorem start_failure_yields_error_without_id_witness :
    (createContainer engStartFails "img").1 = .error (.startFailed "boom") ∧
    (createContainer engStartFails "img").1 ≠ .ok "cid" :=
  ⟨(start_failure_yields_error_without_id engStartFails "img" "cid" "boom"
      (by decide) (by decide) rfl rfl).1,
   (start_failure_yields_error_without_id engStartFails "img" "cid" "boom"
      (by decide) (by decide) rfl rfl).2 "cid"⟩

/-- C10: an image argument that is present but not a string is treated
exactly like an absent argument: the default image is substituted and the
request proceeds identically. -/
theorem nonstring_image_defaults_like_absent (eng : Engine) :
    resolveImage (some .nonString) = "python:3.12-slim-bookworm" ∧
    InitializeEnvironment eng (some .nonString) =
      InitializeEnvironment eng none :=
  ⟨rfl, rfl⟩

lemma tryPath_fst_none (env : DockerEnv) (q : String)
    (h : candSucceeds env (.socket q) = false) :
    (tryPath env q).1 = none := by
  simp only [candSucceeds] at h
  unfold tryPath
  cases hs : env.statOk q <;> simp [hs]
  cases hco : env.connectOk q <;> simp [hco]
  cases hpi : env.pingOk q <;> simp [hpi]
  rw [hco, hpi] at h
  simp at h

lemma tryPath_succ (env : DockerEnv) (q : String) (hs : env.statOk q = true)
    (hc : env.connectOk q = true) (hp : env.pingOk q = true) :
    tryPath env q = (some (.socket q), [.stat q, .connect q, .ping q]) := by
  unfold tryPath
  simp [hs, hc, hp]

lemma tryPath_cand (env : DockerEnv) (q : String) :
    ∀ ev ∈ (tryPath env q).2, ev.cand = .socket q := by
  intro ev hev
  unfold tryPath at hev
  split_ifs at hev <;> simp at hev <;> rcases hev with rfl | rfl | rfl <;> rfl

lemma tryPath_no_attempt (env : DockerEnv) (p q : String)
    (h : env.statOk p = false) :
    REvent.connect p ∉ (tryPath env q).2 ∧ REvent.ping p ∉ (tryPath env q).2 := by
  unfold tryPath
  split_ifs with h1 h2 h3 <;> constructor <;> intro hm <;> simp at hm <;>
    subst hm <;> simp_all

lemma tryPaths_no_attempt (env : DockerEnv) (p : String) (ps : List String)
    (h : env.statOk p = false) :
    REvent.connect p ∉ (tryPaths env ps).2 ∧
    REvent.ping p ∉ (tryPaths env ps).2 := by
  induction ps with
  | nil => simp [tryPaths]
  | cons q ps ih =>
    have hq := tryPath_no_attempt env p q h
    rcases hm : tryPath env q with ⟨r, t⟩
    rw [hm] at hq
    cases r with
    | some c =>
      have h2 : (tryPaths env (q :: ps)).2 = t := by
        simp [tryPaths, hm]
      rw [h2]
      exact hq
    | none =>
      have h2 : (tryPaths env (q :: ps)).2 = t ++ (tryPaths env ps).2 := by
        simp [tryPaths, hm]
      rw [h2]
      constructor <;> intro hmm <;> rcases List.mem_append.mp hmm with h3 | h3
      · exact hq.1 h3
      · exact ih.1 h3
      · exact hq.2 h3
      · exact ih.2 h3

lemma createDockerClient_snd (env : DockerEnv) :
    (createDockerClient env).2 = [.connectEnv, .pingEnv] ∨
    (createDockerClient env).2 =
      envEvents env ++ (tryPaths env (socketPaths env)).2 := by
  by_cases h1 : (env.fromEnvOk && env.fromEnvPingOk) = true
  · left; simp [createDockerClient, h1]
  · right
    rcases hm : (tryPaths env (socketPaths env)).1 with _ | c <;>
      simp [createDockerClient, h1, hm]

lemma tryPaths_first (env : DockerEnv) (ps₁ ps₂ : List String) (p : String)
    (hstat : ∀ q, env.pingOk q = true → env.statOk q = true)
    (hfail : ∀ q ∈ ps₁, candSucceeds env (.socket q) = false)
    (hsucc : candSucceeds env (.socket p) = true) :
    (tryPaths env (ps₁ ++ p :: ps₂)).1 = some (.socket p) ∧
    ∀ ev ∈ (tryPaths env (ps₁ ++ p :: ps₂)).2,
      ev.cand ∈ (ps₁ ++ [p]).map DockerClient.socket := by
  induction ps₁ with
  | nil =>
    have hcp : env.connectOk p = true ∧ env.pingOk p = true := by
      simpa [candSucceeds] using hsucc
    have hsp : env.statOk p = true := hstat p hcp.2
    have htp := tryPath_succ env p hsp hcp.1 hcp.2
    simp only [List.nil_append]
    constructor
    · simp [tryPaths, htp]
    · intro ev hev
      simp [tryPaths, htp] at hev
      rcases hev with rfl | rfl | rfl <;> simp [REvent.cand]
  | cons q ps₁ ih =>
    have hq : candSucceeds env (.socket q) = false := hfail q (by simp)
    have hq1 : (tryPath env q).1 = none := tryPath_fst_none env q hq
    have ih2 := ih (fun r hr => hfail r (by simp [hr]))
    rcases hm : tryPath env q with ⟨r, t⟩
    have hr0 : r = none := by rw [hm] at hq1; exact hq1
    subst hr0
    simp only [List.cons_append]
    constructor
    · simp [tryPaths, hm, ih2.1]
    · intro ev hev
      simp [tryPaths, hm] at hev
      rcases hev with h1 | h1
      · have hc := tryPath_cand env q ev (by rw [hm]; exact h1)
        simp [hc]
      · have hc := ih2.2 ev h1
        exact List.mem_cons_of_mem _ hc

lemma map_socket_split (ps : List String) (cs₁ cs₂ : List DockerClient)
    (c : DockerClient) (h : ps.map DockerClient.socket = cs₁ ++ c :: cs₂) :
    ∃ ps₁ p ps₂, ps = ps₁ ++ p :: ps₂ ∧ cs₁ = ps₁.map DockerClient.socket ∧
      c = .socket p ∧ cs₂ = ps₂.map DockerClient.socket := by
  induction ps generalizing cs₁ with
  | nil =>
    rw [List.map_nil] at h
    exact absurd h.symm (List.append_ne_nil_of_right_ne_nil _ (by simp))
  | cons q ps ih =>
    cases cs₁ with
    | nil =>
      rw [List.map_cons, List.nil_append] at h
      exact ⟨[], q, ps, by simp, rfl, (List.head_eq_of_cons_eq h).symm,
        (List.tail_eq_of_cons_eq h).symm⟩
    | cons d cs₁ =>
      rw [List.map_cons, List.cons_append] at h
      obtain ⟨ps₁, p, ps₂, h1, h2, h3, h4⟩ :=
        ih cs₁ (List.tail_eq_of_cons_eq h)
      exact ⟨q :: ps₁, p, ps₂, by rw [h1]; rfl,
        by rw [List.map_cons, ← h2, List.head_eq_of_cons_eq h], h3, h4⟩

/-- C2: under the physical consistency assumption that a liveness ping can
only succeed on a socket path that exists on disk, the resolver returns the
first candidate (environment-derived default first, then fallback socket
paths in order) whose connection and ping succeed, and performs no call for
any candidate after it. -/
theorem resolver_returns_first_validated_candidate (env : DockerEnv)
    (cs₁ cs₂ : List DockerClient) (c : DockerClient)
    (hstat : ∀ p, env.pingOk p = true → env.statOk p = true)
    (hsplit : candidates env = cs₁ ++ c :: cs₂)
    (hfail : ∀ c2 ∈ cs₁, candSucceeds env c2 = false)
    (hsucc : candSucceeds env c = true) :
    (createDockerClient env).1 = .ok c ∧
    ∀ ev ∈ (createDockerClient env).2, ev.cand ∈ cs₁ ++ [c] := by
  unfold candidates at hsplit
  cases cs₁ with
  | nil =>
    rw [List.nil_append] at hsplit
    have hc : c = .fromEnv := (List.head_eq_of_cons_eq hsplit).symm
    subst hc
    have henv : (env.fromEnvOk && env.fromEnvPingOk) = true := by
      simpa [candSucceeds] using hsucc
    constructor
    · simp [createDockerClient, henv]
    · intro ev hev
      simp [createDockerClient, henv] at hev
      rcases hev with rfl | rfl <;> simp [REvent.cand]
  | cons d cs₁ =>
    rw [List.cons_append] at hsplit
    have hd : d = .fromEnv := (List.head_eq_of_cons_eq hsplit).symm
    subst hd
    have hmap : (socketPaths env).map DockerClient.socket = cs₁ ++ c :: cs₂ :=
      List.tail_eq_of_cons_eq hsplit
    have henvfail : (env.fromEnvOk && env.fromEnvPingOk) = false := by
      have := hfail .fromEnv (by simp)
      simpa [candSucceeds] using this
    obtain ⟨ps₁, p, ps₂, hps, hcs₁, rfl, hcs₂⟩ :=
      map_socket_split _ _ _ _ hmap
    have hfail2 : ∀ q ∈ ps₁, candSucceeds env (.socket q) = false := by
      intro q hq
      apply hfail (.socket q)
      rw [hcs₁]
      exact List.mem_cons_of_mem _ (List.mem_map_of_mem _ hq)
    have hTF := tryPaths_first env ps₁ ps₂ p hstat hfail2 hsucc
    have hfst : (tryPaths env (socketPaths env)).1 = some (.socket p) := by
      rw [hps]; exact hTF.1
    constructor
    · simp [createDockerClient, henvfail, hfst]
    · intro ev hev
      rcases createDockerClient_snd env with h2 | h2 <;> rw [h2] at hev
      · simp at hev
        rcases hev with rfl | rfl <;> exact List.mem_cons_self _ _
      · rcases List.mem_append.mp hev with h3 | h3
        · have hcand : ev.cand = .fromEnv := by
            unfold envEvents at h3
            split_ifs at h3 <;> simp at h3 <;> rcases h3 with rfl | rfl <;> rfl
          rw [hcand]
          exact List.mem_cons_self _ _
        · have h4 : ev ∈ (tryPaths env (ps₁ ++ p :: ps₂)).2 := by
            rw [← hps]; exact h3
          have hcand := hTF.2 ev h4
          rw [List.map_append] at hcand
          rw [← hcs₁] at hcand
          rw [List.cons_append]
          refine List.mem_cons_of_mem _ ?_
          simpa using hcand

/-- Witness for C2: with the default ping failing and only the fixed system
socket present and responsive, the resolver returns that socket's client. -/
theorem resolver_returns_first_validated_candidate_witness :
    (createDockerClient envFallback).1 = .ok (.socket "/var/run/docker.sock") :=
  (resolver_returns_first_validated_candidate envFallback
    [DockerClient.fromEnv]
    [DockerClient.socket "/home/u/.rd/docker.sock",
     .socket "/home/u/.docker/run/docker.sock",
     .socket "/home/u/.colima/default/docker.sock"]
    (.socket "/var/run/docker.sock")
    (fun p h => h) (by decide) (by decide) (by decide)).1

/-- C8: a fallback candidate whose socket path does not exist on disk is
skipped without constructing a client or pinging: no connect or ping call
for that path occurs anywhere in the resolution trace. -/
theorem nonexistent_socket_never_attempted (env : DockerEnv) (p : String)
    (h : env.statOk p = false) :
    REvent.connect p ∉ (createDockerClient env).2 ∧
    REvent.ping p ∉ (createDockerClient env).2 := by
  have ht := tryPaths_no_attempt env p (socketPaths env) h
  rcases createDockerClient_snd env with h2 | h2 <;> rw [h2]
  · constructor <;> intro hm <;> simp at hm
  · constructor <;> intro hm <;> rcases List.mem_append.mp hm with h3 | h3
    · unfold envEvents at h3; split_ifs at h3 <;> simp at h3
    · exact ht.1 h3
    · unfold envEvents at h3; split_ifs at h3 <;> simp at h3
    · exact ht.2 h3

/-- Witness for C8 at a concrete environment with no existing socket path. -/
theorem nonexistent_socket_never_attempted_witness :
    REvent.connect "/var/run/docker.sock" ∉ (createDockerClient envNoDocker).2 ∧
    REvent.ping "/var/run/docker.sock" ∉ (createDockerClient envNoDocker).2 :=
  nonexistent_socket_never_attempted envNoDocker "/var/run/docker.sock" rfl

/-- C9 counterexample: when no socket path exists on disk, the resolution
failure lists the fixed system socket path even though that candidate was
never attempted (no connect or ping call for it), so the set of paths listed
in the error is strictly larger than the set of attempted candidates. -/
theorem connFailed_lists_unattempted_path :
    (createDockerClient envNoDocker).1 =
      .error (.connFailed ["/var/run/docker.sock"]) ∧
    REvent.connect "/var/run/docker.sock" ∉ (createDockerClient envNoDocker).2 ∧
    REvent.ping "/var/run/docker.sock" ∉ (createDockerClient envNoDocker).2 :=
  ⟨rfl, by decide, by decide⟩

/-- C9 amended: on exhaustion, the ConnectionError enumerates exactly the
fallback candidate socket paths (`socketPaths`), whether or not each was
attempted; skipped nonexistent paths are included and the environment-derived
default candidate is not represented as a path. -/
theorem connFailed_lists_all_socket_paths (env : DockerEnv) (e : ResolveError)
    (h : (createDockerClient env).1 = .error e) :
    e = .connFailed (socketPaths env) := by
  by_cases h1 : (env.fromEnvOk && env.fromEnvPingOk) = true
  · simp [createDockerClient, h1] at h
  · rcases hm : (tryPaths env (socketPaths env)).1 with _ | c <;>
      simp [createDockerClient, h1, hm] at h
    exact h.symm

/-- Witness for C9's amended claim at a concrete exhausted environment. -/
theorem connFailed_lists_all_socket_paths_witness :
    ResolveError.connFailed ["/var/run/docker.sock"] =
      .connFailed (socketPaths envNoDocker) :=
  connFailed_lists_all_socket_paths envNoDocker
    (.connFailed ["/var/run/docker.sock"]) rfl
